import Mathlib

/-!
Verification of the station timer / point-of-sale core of `src/main.py`.

Modelling conventions:
* `time.time()` values (wall-clock seconds) are rationals (`ℚ`).
* Monetary amounts are rationals.
* The Python `StationState` object is a record; `start_ts` is `Option ℚ`
  (it is `None` initially and after `reset`).  Where the Python code reads
  `self.start_ts` as a number it is only ever reached with the field set,
  so the embedding reads it with `Option.getD 0`.
* ISO-8601 timestamps (`now_iso`, `datetime.isoformat`) are structured
  records `DateTime`; since all rendered timestamps have fixed-width
  fields, lexicographic string comparison (SQL `BETWEEN` over `TEXT`)
  agrees with componentwise comparison, which we realise by the injective
  numeric key `DateTime.key`.
-/

namespace Space

/-- The mutable per-station timer object, from `StationState.__init__`
(src/main.py lines 132-140).  `station_name` stands for the
`station["name"]` entry of the attached configuration dict. -/
structure StationState where
  station_name : String
  running : Bool
  paused : Bool
  start_ts : Option ℚ
  elapsed : ℚ
  customer_name : String
deriving Repr, DecidableEq

/-- Fresh state built by `StationState.__init__`. -/
def StationState.init (name : String) : StationState :=
  { station_name := name
    running := false
    paused := false
    start_ts := none
    elapsed := 0
    customer_name := "" }

/-- The anchor value the Python code reads as `self.start_ts`. -/
def StationState.anchor (s : StationState) : ℚ :=
  s.start_ts.getD 0

/-- "Active" in the dashboard's classification (`_update_dashboard`,
lines 454-458): `running and not paused`. -/
def StationState.isRunning (s : StationState) : Prop :=
  s.running = true ∧ s.paused = false

/-- "Paused" in the dashboard's classification: `running and paused`. -/
def StationState.isPaused (s : StationState) : Prop :=
  s.running = true ∧ s.paused = true

/-- "Stopped" in the dashboard's classification: `not running`. -/
def StationState.isStopped (s : StationState) : Prop :=
  s.running = false

instance (s : StationState) : Decidable s.isRunning := by
  unfold StationState.isRunning; infer_instance

instance (s : StationState) : Decidable s.isPaused := by
  unfold StationState.isPaused; infer_instance

instance (s : StationState) : Decidable s.isStopped := by
  unfold StationState.isStopped; infer_instance

/-- `StationState.start` (lines 142-148): no-op when `self.running`,
otherwise becomes running with a fresh anchor.  `elapsed` is untouched. -/
def StationState.start (now : ℚ) (s : StationState) : StationState :=
  if s.running then s
  else { s with running := true, paused := false, start_ts := some now }

/-- `StationState.pause` (lines 150-159): no-op when not running; when
running and not paused it folds `now - start_ts` into `elapsed` and sets
`paused` (note: `start_ts` is NOT cleared); when running and paused it
resumes with a fresh anchor, leaving `elapsed` alone. -/
def StationState.pause (now : ℚ) (s : StationState) : StationState :=
  if !s.running then s
  else if !s.paused then
    { s with elapsed := s.elapsed + (now - s.anchor), paused := true }
  else
    { s with start_ts := some now, paused := false }

/-- `StationState.stop` (lines 161-168): no-op when not running; folds
`now - start_ts` into `elapsed` only when not paused; clears both flags. -/
def StationState.stop (now : ℚ) (s : StationState) : StationState :=
  if !s.running then s
  else if !s.paused then
    { s with elapsed := s.elapsed + (now - s.anchor),
             running := false, paused := false }
  else
    { s with running := false, paused := false }

/-- `StationState.reset` (lines 170-176). -/
def StationState.reset (s : StationState) : StationState :=
  { s with running := false, paused := false, start_ts := none,
           elapsed := 0, customer_name := "" }

/-- `StationState.current_elapsed` (lines 178-181). -/
def StationState.current_elapsed (now : ℚ) (s : StationState) : ℚ :=
  if s.running && !s.paused then s.elapsed + (now - s.anchor)
  else s.elapsed

/-! ## Calendar and timestamps -/

/-- Gregorian leap year, as `calendar`/`datetime` define it. -/
def isLeap (y : ℕ) : Bool :=
  (y % 4 == 0 && y % 100 != 0) || y % 400 == 0

/-- Length of month `m` of year `y` (months are 1-12). -/
def daysInMonth (y m : ℕ) : ℕ :=
  if m = 2 then (if isLeap y then 29 else 28)
  else if m = 4 ∨ m = 6 ∨ m = 9 ∨ m = 11 then 30
  else 31

/-- A calendar date (`datetime.date`). -/
structure Date where
  year : ℕ
  month : ℕ
  day : ℕ
deriving Repr, DecidableEq

/-- A date with in-range month and day fields. -/
def Date.Valid (d : Date) : Prop :=
  1 ≤ d.month ∧ d.month ≤ 12 ∧ 1 ≤ d.day ∧ d.day ≤ daysInMonth d.year d.month

/-- The calendar successor of a date. -/
def Date.next (d : Date) : Date :=
  if d.day < daysInMonth d.year d.month then ⟨d.year, d.month, d.day + 1⟩
  else if d.month < 12 then ⟨d.year, d.month + 1, 1⟩
  else ⟨d.year + 1, 1, 1⟩

/-- `date + datetime.timedelta(days=n)`. -/
def Date.addDays (n : ℕ) (d : Date) : Date :=
  match n with
  | 0 => d
  | n + 1 => Date.addDays n d.next

/-- A wall-clock instant as rendered by `datetime.isoformat()`
(`YYYY-MM-DDTHH:MM:SS[.ffffff]`); `usec = 0` for the second-precision
strings produced by `now_iso` (line 95-96). -/
structure DateTime where
  year : ℕ
  month : ℕ
  day : ℕ
  hour : ℕ
  minute : ℕ
  second : ℕ
  usec : ℕ
deriving Repr, DecidableEq

/-- Injective encoding realising the lexicographic (= chronological =
ISO-string) order on valid timestamps. -/
def DateTime.key (t : DateTime) : ℕ :=
  (((((t.year * 13 + t.month) * 32 + t.day) * 24 + t.hour) * 60 + t.minute)
      * 60 + t.second) * 1000000 + t.usec

/-- ISO-string comparison of two timestamps (`≤`). -/
def DateTime.ble (a b : DateTime) : Bool :=
  a.key ≤ b.key

/-- SQL `x BETWEEN lo AND hi` on timestamp text. -/
def tsBetween (lo x hi : DateTime) : Bool :=
  lo.ble x && x.ble hi

/-- Midnight (`datetime.combine(d, time.min)`) of a date. -/
def Date.atMin (d : Date) : DateTime :=
  ⟨d.year, d.month, d.day, 0, 0, 0, 0⟩

/-- `datetime.combine(d, time.max)`: 23:59:59.999999 of a date. -/
def Date.atMax (d : Date) : DateTime :=
  ⟨d.year, d.month, d.day, 23, 59, 59, 999999⟩

/-- 23:59:59 of a date at second precision. -/
def Date.atLastSecond (d : Date) : DateTime :=
  ⟨d.year, d.month, d.day, 23, 59, 59, 0⟩

/-- `t - datetime.timedelta(seconds=1)` with the usual borrows. -/
def DateTime.subOneSecond (t : DateTime) : DateTime :=
  if 0 < t.second then { t with second := t.second - 1 }
  else if 0 < t.minute then { t with minute := t.minute - 1, second := 59 }
  else if 0 < t.hour then { t with hour := t.hour - 1, minute := 59, second := 59 }
  else if 1 < t.day then ⟨t.year, t.month, t.day - 1, 23, 59, 59, t.usec⟩
  else if 1 < t.month then
    ⟨t.year, t.month - 1, daysInMonth t.year (t.month - 1), 23, 59, 59, t.usec⟩
  else ⟨t.year - 1, 12, 31, 23, 59, 59, t.usec⟩

/-! ## Persisted rows and the database -/

/-- A row of the `sessions` table (schema lines 69-79). -/
structure CompletedSession where
  station_name : String
  customer_name : String
  start_ts : DateTime
  end_ts : DateTime
  duration_seconds : ℤ
  rate_per_hour : ℚ
  cost : ℚ
deriving Repr, DecidableEq

/-- A row of the `item_sales` table (schema lines 46-54). -/
structure ItemSale where
  ts : DateTime
  item_id : ℕ
  qty : ℤ
  total : ℚ
deriving Repr, DecidableEq

/-- A row of the `cash_transactions` table (schema lines 58-64). -/
structure CashTx where
  ts : DateTime
  kind : String
  amount : ℚ
  notes : String
deriving Repr, DecidableEq

/-- A row of the `items` table (schema lines 37-42). -/
structure Item where
  id : ℕ
  name : String
  price : ℚ
deriving Repr, DecidableEq

/-- The embedded database (the four tables of `init_db`). -/
structure Db where
  items : List Item
  item_sales : List ItemSale
  cash_transactions : List CashTx
  sessions : List CompletedSession
deriving Repr, DecidableEq

/-- The freshly initialised, empty database. -/
def Db.empty : Db := ⟨[], [], [], []⟩

/-- Python `int()` applied to a non-integral number: truncation toward
zero. -/
def pyInt (q : ℚ) : ℤ :=
  if q < 0 then ⌈q⌉ else ⌊q⌋

/-! ## Application-level operations (`SpaceApp`) -/

/-- `SpaceApp._save_session` (lines 488-505): INSERT into `sessions`.
Both `start_ts` and `end_ts` are filled with `now_iso()` evaluated while
building the single INSERT tuple, embedded here as the one timestamp
`nowTs`; `duration_seconds` is `int(elapsed)`. -/
def save_session (db : Db) (station_name customer_name : String)
    (nowTs : DateTime) (elapsed : ℚ) (rate cost : ℚ) : Db :=
  { db with sessions := db.sessions ++
      [{ station_name := station_name
         customer_name := customer_name
         start_ts := nowTs
         end_ts := nowTs
         duration_seconds := pyInt elapsed
         rate_per_hour := rate
         cost := cost }] }

/-- `SpaceApp._stop_station` (lines 475-482): early return when the
station is not running; otherwise stop the timer, read the frozen
elapsed, compute the cost from the rate currently in the station's
`rate_var`, and persist one session row. -/
def stop_station (now : ℚ) (nowTs : DateTime) (rate : ℚ)
    (s : StationState) (db : Db) : StationState × Db :=
  if !s.running then (s, db)
  else
    let s1 := s.stop now
    let elapsed := s1.current_elapsed now
    let cost := elapsed / 3600 * rate
    (s1, save_session db s.station_name s.customer_name nowTs elapsed rate cost)

/-- `SpaceApp._reset_station` (lines 484-486): resets the timer state and
touches no table. -/
def reset_station (s : StationState) (db : Db) : StationState × Db :=
  (s.reset, db)

/-! ## Selling an item -/

/-- Outcome of the sell flow (`_sell_item` + `SaleDialog._confirm` +
`_record_sale`). -/
inductive SellOutcome where
  /-- One `ItemSale` row was appended; carries the new table. -/
  | sold (item_sales : List ItemSale)
  /-- `SaleDialog._confirm` rejected the quantity (warning dialog),
  nothing recorded. -/
  | invalidQty
  /-- `_sell_item` found no row for the id and silently returned. -/
  | itemMissing
deriving Repr, DecidableEq

/-- The sell flow for a chosen item id and confirmed quantity:
`_sell_item` (lines 561-571) looks the item up and bails out when absent;
`SaleDialog._confirm` (lines 716-722) rejects `qty <= 0`; `_record_sale`
(lines 573-581) computes `total = price * qty` and appends one row
timestamped `now_iso()`. -/
def sell_item (db : Db) (ts : DateTime) (item_id : ℕ) (qty : ℤ) :
    SellOutcome :=
  match db.items.find? (fun it => it.id == item_id) with
  | none => .itemMissing
  | some it =>
      if qty ≤ 0 then .invalidQty
      else .sold (db.item_sales ++ [⟨ts, item_id, qty, it.price * qty⟩])

/-! ## Reporting -/

/-- `SELECT COALESCE(SUM(cost), 0) FROM sessions WHERE start_ts BETWEEN
lo AND hi`. -/
def sessionsTotalBetween (db : Db) (lo hi : DateTime) : ℚ :=
  (db.sessions.filter (fun r => tsBetween lo r.start_ts hi)).foldr
    (fun r acc => r.cost + acc) 0

/-- `SELECT COALESCE(SUM(total), 0) FROM item_sales WHERE ts BETWEEN lo
AND hi`. -/
def salesTotalBetween (db : Db) (lo hi : DateTime) : ℚ :=
  (db.item_sales.filter (fun r => tsBetween lo r.ts hi)).foldr
    (fun r acc => r.total + acc) 0

/-- `SELECT COALESCE(SUM(CASE WHEN type = 'deposit' THEN amount ELSE
-amount END), 0) FROM cash_transactions WHERE ts BETWEEN lo AND hi`. -/
def cashTotalBetween (db : Db) (lo hi : DateTime) : ℚ :=
  (db.cash_transactions.filter (fun r => tsBetween lo r.ts hi)).foldr
    (fun r acc => (if r.kind = "deposit" then r.amount else -r.amount) + acc) 0

/-- The daily window of `_build_report` (lines 616-618):
`[combine(today, time.min), combine(today, time.max)]`. -/
def dailyWindow (today : Date) : DateTime × DateTime :=
  (today.atMin, today.atMax)

/-- The monthly window of `_build_report` (lines 621-623): start is the
first of the month; 32 days later lands in the following month, whose
first instant minus one second is the end. -/
def monthlyWindow (today : Date) : DateTime × DateTime :=
  let start : Date := ⟨today.year, today.month, 1⟩
  let next_month := start.addDays 32
  (start.atMin, (Date.atMin ⟨next_month.year, next_month.month, 1⟩).subOneSecond)

/-- The figures `_build_report` (lines 626-651) renders for a window. -/
structure Report where
  session_revenue : ℚ
  item_sales : ℚ
  cash_net : ℚ
  total_revenue : ℚ
deriving Repr, DecidableEq

/-- `SpaceApp._build_report` windowed aggregation: the three sums plus
the `Total Revenue` line, which is `sessions_total + sales_total`
(line 650). -/
def build_report (db : Db) (lo hi : DateTime) : Report :=
  { session_revenue := sessionsTotalBetween db lo hi
    item_sales := salesTotalBetween db lo hi
    cash_net := cashTotalBetween db lo hi
    total_revenue := sessionsTotalBetween db lo hi + salesTotalBetween db lo hi }

/-- `SpaceApp._export_report` (lines 653-668): the all-time, unwindowed
three sums written as the CSV rows `Sessions`, `Item Sales`, `Cash Net`. -/
def export_summary (db : Db) : ℚ × ℚ × ℚ :=
  (db.sessions.foldr (fun r acc => r.cost + acc) 0,
   db.item_sales.foldr (fun r acc => r.total + acc) 0,
   db.cash_transactions.foldr
     (fun r acc => (if r.kind = "deposit" then r.amount else -r.amount) + acc) 0)

/-! ## Operation sequences on one station

The dashboard buttons drive one `StationState` through `start` / `pause`
(the same button resumes) / `stop`; interleaved with them the 1 Hz tick
and the cost display read `current_elapsed()`.  We model a sequence of
such events, each carrying the `time.time()` value at which it runs. -/

/-- A button press on one station (`pause` is the pause/resume toggle). -/
inductive Op where
  | start
  | pause
  | stop
deriving Repr, DecidableEq

/-- Dispatch of a button press, as the dashboard callbacks do. -/
def applyOp (o : Op) (t : ℚ) (s : StationState) : StationState :=
  match o with
  | .start => s.start t
  | .pause => s.pause t
  | .stop => s.stop t

/-- An event: a button press or a `current_elapsed()` query. -/
inductive Ev where
  | op (o : Op)
  | query
deriving Repr, DecidableEq

/-- Run timestamped events left to right, collecting each query's
`current_elapsed()` result. -/
def runEvents (s : StationState) : List (Ev × ℚ) → List ℚ
  | [] => []
  | (.op o, t) :: rest => runEvents (applyOp o t s) rest
  | (.query, t) :: rest => s.current_elapsed t :: runEvents s rest

/-- The event times are non-decreasing, starting from `t0` (the clock
never goes backwards). -/
def Chrono (t0 : ℚ) : List (Ev × ℚ) → Prop
  | [] => True
  | (_, t) :: rest => t0 ≤ t ∧ Chrono t rest

instance (t0 : ℚ) (evs : List (Ev × ℚ)) : Decidable (Chrono t0 evs) := by
  induction evs generalizing t0 with
  | nil => exact .isTrue trivial
  | cons e rest ih => exact @instDecidableAnd _ _ _ (ih e.2)

/-- `current_elapsed` is monotone in the query time on any fixed state. -/
lemma current_elapsed_mono (s : StationState) {t1 t2 : ℚ} (h : t1 ≤ t2) :
    s.current_elapsed t1 ≤ s.current_elapsed t2 := by
  unfold StationState.current_elapsed
  split
  · linarith
  · exact le_refl _

/-- Every button press leaves the instantaneous `current_elapsed` value
unchanged at the moment it runs. -/
lemma applyOp_current_elapsed (o : Op) (t : ℚ) (s : StationState) :
    (applyOp o t s).current_elapsed t = s.current_elapsed t := by
  obtain ⟨n, r, p, a, e, c⟩ := s
  cases o <;> cases r <;> cases p <;>
    simp [applyOp, StationState.start, StationState.pause, StationState.stop,
      StationState.current_elapsed, StationState.anchor]

/-- Along a chronological event sequence, any lower bound on the current
value bounds every later query result, chainwise. -/
lemma runEvents_chain : ∀ (evs : List (Ev × ℚ)) (t0 : ℚ) (s : StationState)
    (v : ℚ), Chrono t0 evs → v ≤ s.current_elapsed t0 →
    List.Chain (· ≤ ·) v (runEvents s evs)
  | [], _, _, _, _, _ => List.Chain.nil
  | (.op o, t) :: rest, t0, s, v, hc, hv => by
      refine runEvents_chain rest t (applyOp o t s) v hc.2 ?_
      rw [applyOp_current_elapsed]
      exact hv.trans (current_elapsed_mono s hc.1)
  | (.query, t) :: rest, t0, s, v, hc, hv => by
      refine List.Chain.cons (hv.trans (current_elapsed_mono s hc.1)) ?_
      exact runEvents_chain rest t s _ hc.2 (le_refl _)

/-- `stop()` always leaves the `running` flag cleared. -/
lemma stop_running_false (s : StationState) (now : ℚ) :
    (s.stop now).running = false := by
  unfold StationState.stop
  split
  · next h => simpa using h
  · split <;> rfl

/-- `current_elapsed()` on a non-running station is the stored field. -/
lemma current_elapsed_not_running (s : StationState) (t : ℚ)
    (h : s.running = false) : s.current_elapsed t = s.elapsed := by
  simp [StationState.current_elapsed, h]

/-- `_stop_station` on a running (or paused) station: the pair it
produces, with the elapsed value already frozen by `stop()`. -/
lemma stop_station_eq (s : StationState) (db : Db) (now : ℚ)
    (nowTs : DateTime) (rate : ℚ) (hrun : s.running = true) :
    stop_station now nowTs rate s db =
      (s.stop now,
       save_session db s.station_name s.customer_name nowTs
         (s.stop now).elapsed rate ((s.stop now).elapsed / 3600 * rate)) := by
  simp [stop_station, hrun,
    current_elapsed_not_running (s.stop now) now (stop_running_false s now)]

/-! ## Claim theorems -/

/-- C1: `current_elapsed()` returns accumulated elapsed plus (now minus
anchor) when the station is Running, and the accumulated elapsed value
unchanged when it is Paused or Stopped. -/
theorem current_elapsed_spec (s : StationState) (now : ℚ) :
    (s.isRunning → s.current_elapsed now = s.elapsed + (now - s.anchor)) ∧
    (s.isPaused ∨ s.isStopped → s.current_elapsed now = s.elapsed) := by
  constructor
  · rintro ⟨hr, hp⟩
    simp [StationState.current_elapsed, hr, hp]
  · rintro (⟨hr, hp⟩ | hs)
    · simp [StationState.current_elapsed, hr, hp]
    · have hr : s.running = false := hs
      simp [StationState.current_elapsed, hr]

/-- Witness for C1 on concrete running and paused states. -/
theorem current_elapsed_spec_witness :
    (StationState.mk "Table 1" true false (some 5) 10 "").current_elapsed 8 =
      10 + (8 - 5) ∧
    (StationState.mk "Table 1" true true (some 5) 10 "").current_elapsed 8 = 10 :=
  ⟨(current_elapsed_spec _ 8).1 ⟨rfl, rfl⟩,
   (current_elapsed_spec _ 8).2 (Or.inl ⟨rfl, rfl⟩)⟩

/-- C2: along any chronological sequence of start/pause(resume)/stop
events on one station, the successive `current_elapsed()` query results
are non-decreasing; on a fixed state the value is monotone in the query
time while Running and literally constant while Paused or Stopped. -/
theorem elapsed_monotone_spec :
    (∀ (s : StationState) (t0 : ℚ) (evs : List (Ev × ℚ)), Chrono t0 evs →
      List.Chain' (· ≤ ·) (runEvents s evs)) ∧
    (∀ (s : StationState) (t1 t2 : ℚ), t1 ≤ t2 → s.isRunning →
      s.current_elapsed t1 ≤ s.current_elapsed t2) ∧
    (∀ (s : StationState) (t1 t2 : ℚ), s.isPaused ∨ s.isStopped →
      s.current_elapsed t1 = s.current_elapsed t2) := by
  refine ⟨?_, ?_, ?_⟩
  · intro s t0 evs hc
    induction evs generalizing s t0 with
    | nil => simp [runEvents]
    | cons e rest ih =>
        obtain ⟨ev, t⟩ := e
        cases ev with
        | op o => exact ih (applyOp o t s) t hc.2
        | query =>
            show List.Chain (· ≤ ·) (s.current_elapsed t) (runEvents s rest)
            exact runEvents_chain rest t s _ hc.2 (le_refl _)
  · intro s t1 t2 h _
    exact current_elapsed_mono s h
  · rintro s t1 t2 (⟨hr, hp⟩ | hs)
    · simp [StationState.current_elapsed, hr, hp]
    · have hr : s.running = false := hs
      simp [StationState.current_elapsed, hr]

/-- Witness for C2 on a concrete start/query/pause/query/resume/stop
trace and on concrete running and stopped states. -/
theorem elapsed_monotone_spec_witness :
    List.Chain' (· ≤ ·) (runEvents (StationState.init "Table 1")
      [(Ev.op Op.start, 1), (Ev.query, 2), (Ev.op Op.pause, 3), (Ev.query, 4),
       (Ev.op Op.pause, 5), (Ev.op Op.stop, 6), (Ev.query, 7)]) ∧
    (StationState.mk "Table 1" true false (some 0) 0 "").current_elapsed 1 ≤
      (StationState.mk "Table 1" true false (some 0) 0 "").current_elapsed 2 ∧
    (StationState.mk "Table 1" false false none 4 "").current_elapsed 1 =
      (StationState.mk "Table 1" false false none 4 "").current_elapsed 2 :=
  ⟨elapsed_monotone_spec.1 _ 0 _ (by norm_num [Chrono]),
   elapsed_monotone_spec.2.1 _ 1 2 (by norm_num) ⟨rfl, rfl⟩,
   elapsed_monotone_spec.2.2 _ 1 2 (Or.inr rfl)⟩

/-- C4 counterexample: `pause()` on a Running station does NOT clear the
anchor — after pausing at time 10 a station anchored at 5, the station is
Paused but `start_ts` still holds 5 (lines 150-155 never touch it). -/
theorem pause_keeps_anchor_counterexample :
    ((StationState.mk "Table 1" true false (some 5) 0 "").pause 10).paused = true ∧
    ((StationState.mk "Table 1" true false (some 5) 0 "").pause 10).start_ts =
      some 5 ∧
    ((StationState.mk "Table 1" true false (some 5) 0 "").pause 10).start_ts ≠
      none := by
  refine ⟨rfl, rfl, ?_⟩
  simp [StationState.pause]

/-- C4 amended: `pause()` when Running adds (now − anchor) to the
accumulated elapsed and moves to Paused, leaving the anchor field
unchanged (it holds a stale value that is never read while Paused);
`pause()` when Paused sets a fresh anchor = now and returns to Running
without altering the accumulated elapsed; `pause()` when Stopped is a
no-op. -/
theorem pause_toggle_spec (s : StationState) (now : ℚ) :
    (s.isRunning → s.pause now =
      { s with elapsed := s.elapsed + (now - s.anchor), paused := true }) ∧
    (s.isPaused → s.pause now =
      { s with start_ts := some now, paused := false }) ∧
    (s.isStopped → s.pause now = s) := by
  refine ⟨?_, ?_, ?_⟩
  · rintro ⟨hr, hp⟩
    simp [StationState.pause, hr, hp]
  · rintro ⟨hr, hp⟩
    simp [StationState.pause, hr, hp]
  · intro hs
    have hr : s.running = false := hs
    simp [StationState.pause, hr]

/-- Witness for C4 (amended) on concrete running, paused and stopped
states. -/
theorem pause_toggle_spec_witness :
    (StationState.mk "Table 1" true false (some 5) 2 "").pause 10 =
      StationState.mk "Table 1" true true (some 5) (2 + (10 - 5)) "" ∧
    (StationState.mk "Table 1" true true (some 5) 7 "").pause 10 =
      StationState.mk "Table 1" true false (some 10) 7 "" ∧
    (StationState.mk "Table 1" false false none 7 "").pause 10 =
      StationState.mk "Table 1" false false none 7 "" :=
  ⟨(pause_toggle_spec _ 10).1 ⟨rfl, rfl⟩,
   (pause_toggle_spec _ 10).2.1 ⟨rfl, rfl⟩,
   (pause_toggle_spec _ 10).2.2 rfl⟩

/-- C5: `start()` is a no-op when already Running or Paused; from
Stopped it moves to Running with anchor = now; it never changes the
accumulated elapsed (which therefore carries across a stop()-then-start()
cycle with no intervening reset()). -/
theorem start_spec (s : StationState) (now t1 t2 : ℚ) :
    (s.isRunning ∨ s.isPaused → s.start now = s) ∧
    (s.isStopped → s.start now =
      { s with running := true, paused := false, start_ts := some now }) ∧
    (s.start now).elapsed = s.elapsed ∧
    ((s.stop t1).start t2).elapsed = (s.stop t1).elapsed := by
  refine ⟨?_, ?_, ?_, ?_⟩
  · rintro (⟨hr, _⟩ | ⟨hr, _⟩) <;> simp [StationState.start, hr]
  · intro hs
    have hr : s.running = false := hs
    simp [StationState.start, hr]
  · unfold StationState.start
    split <;> rfl
  · unfold StationState.start
    split <;> rfl

/-- Witness for C5 on concrete paused and stopped states and a concrete
stop-then-start cycle. -/
theorem start_spec_witness :
    (StationState.mk "Table 1" true true (some 5) 2 "").start 9 =
      StationState.mk "Table 1" true true (some 5) 2 "" ∧
    (StationState.mk "Table 1" false false none 2 "").start 9 =
      StationState.mk "Table 1" true false (some 9) 2 "" ∧
    ((StationState.mk "Table 1" false false none 2 "").start 9).elapsed = 2 ∧
    (((StationState.mk "Table 1" true false (some 0) 0 "").stop 10).start
        20).elapsed =
      ((StationState.mk "Table 1" true false (some 0) 0 "").stop 10).elapsed :=
  ⟨(start_spec _ 9 0 0).1 (Or.inr ⟨rfl, rfl⟩),
   (start_spec _ 9 0 0).2.1 rfl,
   (start_spec _ 9 0 0).2.2.1,
   (start_spec _ 9 10 20).2.2.2⟩

/-- C6: `reset()` (via `_reset_station`) from any state leaves the
station Stopped with zero elapsed, an empty customer name and no anchor,
and writes nothing to the database — no CompletedSession row. -/
theorem reset_spec (s : StationState) (db : Db) :
    (reset_station s db).1.isStopped ∧
    (reset_station s db).1.paused = false ∧
    (reset_station s db).1.elapsed = 0 ∧
    (reset_station s db).1.customer_name = "" ∧
    (reset_station s db).1.start_ts = none ∧
    (reset_station s db).2 = db :=
  ⟨rfl, rfl, rfl, rfl, rfl, rfl⟩

/-- C3: `stop()` from Running folds (now − anchor) into the accumulated
elapsed and `_stop_station` then appends exactly one CompletedSession row
whose rate and cost use the hourly rate read at the moment of the stop;
from Paused it persists the frozen elapsed without adding time; when
already Stopped nothing changes and no row is appended. -/
theorem stop_station_spec (s : StationState) (db : Db) (now : ℚ)
    (nowTs : DateTime) (rate : ℚ) :
    (s.isRunning →
      (stop_station now nowTs rate s db).1.elapsed = s.elapsed + (now - s.anchor) ∧
      (stop_station now nowTs rate s db).1.isStopped ∧
      (stop_station now nowTs rate s db).2.sessions = db.sessions ++
        [{ station_name := s.station_name
           customer_name := s.customer_name
           start_ts := nowTs
           end_ts := nowTs
           duration_seconds := pyInt (s.elapsed + (now - s.anchor))
           rate_per_hour := rate
           cost := (s.elapsed + (now - s.anchor)) / 3600 * rate }]) ∧
    (s.isPaused →
      (stop_station now nowTs rate s db).1.elapsed = s.elapsed ∧
      (stop_station now nowTs rate s db).1.isStopped ∧
      (stop_station now nowTs rate s db).2.sessions = db.sessions ++
        [{ station_name := s.station_name
           customer_name := s.customer_name
           start_ts := nowTs
           end_ts := nowTs
           duration_seconds := pyInt s.elapsed
           rate_per_hour := rate
           cost := s.elapsed / 3600 * rate }]) ∧
    (s.isStopped → stop_station now nowTs rate s db = (s, db)) := by
  refine ⟨?_, ?_, ?_⟩
  · rintro ⟨hr, hp⟩
    refine ⟨?_, ?_, ?_⟩ <;>
      simp [stop_station, StationState.stop, StationState.current_elapsed,
        StationState.isStopped, save_session, hr, hp]
  · rintro ⟨hr, hp⟩
    refine ⟨?_, ?_, ?_⟩ <;>
      simp [stop_station, StationState.stop, StationState.current_elapsed,
        StationState.isStopped, save_session, hr, hp]
  · intro hs
    have hr : s.running = false := hs
    simp [stop_station, hr]

/-- Witness for C3 on a concrete running station with a nonempty
database. -/
theorem stop_station_spec_witness :
    (stop_station 100 (DateTime.mk 2024 6 15 12 0 0 0) 60
        (StationState.mk "Table 1" true false (some 40) 30 "omar")
        Db.empty).1.elapsed = 30 + (100 - 40) ∧
    (stop_station 100 (DateTime.mk 2024 6 15 12 0 0 0) 60
        (StationState.mk "Table 1" true false (some 40) 30 "omar")
        Db.empty).2.sessions = [] ++
      [{ station_name := "Table 1"
         customer_name := "omar"
         start_ts := DateTime.mk 2024 6 15 12 0 0 0
         end_ts := DateTime.mk 2024 6 15 12 0 0 0
         duration_seconds := pyInt (30 + (100 - 40))
         rate_per_hour := 60
         cost := (30 + (100 - 40)) / 3600 * 60 }] ∧
    stop_station 100 (DateTime.mk 2024 6 15 12 0 0 0) 60
        (StationState.mk "Table 1" false false none 30 "omar") Db.empty =
      (StationState.mk "Table 1" false false none 30 "omar", Db.empty) :=
  ⟨((stop_station_spec _ Db.empty 100 _ 60).1 ⟨rfl, rfl⟩).1,
   ((stop_station_spec _ Db.empty 100 _ 60).1 ⟨rfl, rfl⟩).2.2,
   (stop_station_spec _ Db.empty 100 _ 60).2.2 rfl⟩

/-- C10: every CompletedSession row persisted by `_stop_station` carries
the same instant (the `now_iso()` of the moment of stop) as both its
start and end timestamp, so report windowing — which filters on
`start_ts` — classifies the session by when it stopped, and end minus
start (zero) differs from the stored duration once the duration is at
least two seconds. -/
theorem session_row_timestamps_spec (s : StationState) (db : Db) (now : ℚ)
    (nowTs : DateTime) (rate : ℚ) (hrun : s.running = true) :
    ∃ row : CompletedSession,
      (stop_station now nowTs rate s db).2.sessions = db.sessions ++ [row] ∧
      row.start_ts = nowTs ∧
      row.end_ts = row.start_ts ∧
      row.duration_seconds =
        pyInt ((stop_station now nowTs rate s db).1.elapsed) ∧
      (∀ lo hi : DateTime,
        tsBetween lo row.start_ts hi = tsBetween lo nowTs hi) ∧
      (2 ≤ row.duration_seconds →
        (row.end_ts.key : ℤ) - (row.start_ts.key : ℤ) ≠ row.duration_seconds) := by
  refine ⟨{ station_name := s.station_name
            customer_name := s.customer_name
            start_ts := nowTs
            end_ts := nowTs
            duration_seconds := pyInt ((stop_station now nowTs rate s db).1.elapsed)
            rate_per_hour := rate
            cost := (stop_station now nowTs rate s db).1.elapsed / 3600 * rate },
          ?_, rfl, rfl, rfl, fun lo hi => rfl, ?_⟩
  · rw [stop_station_eq s db now nowTs rate hrun]
    simp [stop_station_eq s db now nowTs rate hrun, save_session]
  · intro hdur
    dsimp only at hdur ⊢
    simp only [sub_self]
    omega

/-- Reference definition taken from the spec's words: the "first day of
the following month" of the month containing `(y, m)`. -/
def followingMonthFirst (y m : ℕ) : Date :=
  if m = 12 then ⟨y + 1, 1, 1⟩ else ⟨y, m + 1, 1⟩

/-- No month is longer than 31 days. -/
lemma daysInMonth_le_31 (y m : ℕ) : daysInMonth y m ≤ 31 := by
  unfold daysInMonth
  split
  · split <;> omega
  · split <;> omega

set_option maxHeartbeats 1000000 in
/-- Adding 32 days to the first of a month lands in the following month
(months have between 28 and 31 days). -/
lemma addDays32_yearMonth (y m : ℕ) (h1 : 1 ≤ m) (h2 : m ≤ 12) :
    (Date.addDays 32 ⟨y, m, 1⟩).year = (followingMonthFirst y m).year ∧
    (Date.addDays 32 ⟨y, m, 1⟩).month = (followingMonthFirst y m).month := by
  interval_cases m <;>
    cases hl : isLeap y <;>
      simp [Date.addDays, Date.next, daysInMonth, followingMonthFirst, hl]

/-- C7: the daily report window of `_build_report` runs from today's
00:00:00 to `time.max` (23:59:59.999999), which over the second-precision
timestamps the app stores is exactly [00:00:00, 23:59:59] of today — so a
row stamped 23:59:59 of the report day is included and one stamped
00:00:00 of the next day is excluded; the monthly window end is the first
instant of the following month minus one second, i.e. 23:59:59 of the
current month's last day. -/
theorem report_window_spec :
    (∀ (today : Date) (ts : DateTime), ts.usec = 0 →
      (tsBetween (dailyWindow today).1 ts (dailyWindow today).2 = true ↔
        (today.atMin.ble ts = true ∧ ts.ble today.atLastSecond = true))) ∧
    (∀ today : Date, today.Valid →
      tsBetween (dailyWindow today).1 today.atLastSecond (dailyWindow today).2 =
        true ∧
      tsBetween (dailyWindow today).1 today.next.atMin (dailyWindow today).2 =
        false) ∧
    (∀ today : Date, today.Valid →
      monthlyWindow today =
        (Date.atMin ⟨today.year, today.month, 1⟩,
         (Date.atMin (followingMonthFirst today.year today.month)).subOneSecond) ∧
      (monthlyWindow today).2 =
        ⟨today.year, today.month, daysInMonth today.year today.month,
          23, 59, 59, 0⟩) := by
  refine ⟨?_, ?_, ?_⟩
  · intro today ts h
    simp only [tsBetween, DateTime.ble, dailyWindow, Date.atMin, Date.atMax,
      Date.atLastSecond, Bool.and_eq_true, decide_eq_true_eq, DateTime.key, h]
    omega
  · intro today hv
    obtain ⟨h1, h2, h3, h4⟩ := hv
    have h31 := daysInMonth_le_31 today.year today.month
    constructor
    · simp only [tsBetween, DateTime.ble, dailyWindow, Date.atMin, Date.atMax,
        Date.atLastSecond, Bool.and_eq_true, decide_eq_true_eq, DateTime.key]
      omega
    · unfold Date.next
      split
      · next hd =>
          simp only [tsBetween, DateTime.ble, dailyWindow, Date.atMin,
            Date.atMax, Bool.and_eq_false_iff, decide_eq_false_iff_not,
            DateTime.key]
          omega
      · split
        · next hd hm =>
            simp only [tsBetween, DateTime.ble, dailyWindow, Date.atMin,
              Date.atMax, Bool.and_eq_false_iff, decide_eq_false_iff_not,
              DateTime.key]
            omega
        · next hd hm =>
            simp only [tsBetween, DateTime.ble, dailyWindow, Date.atMin,
              Date.atMax, Bool.and_eq_false_iff, decide_eq_false_iff_not,
              DateTime.key]
            omega
  · intro today hv
    obtain ⟨h1, h2, h3, h4⟩ := hv
    have ha := addDays32_yearMonth today.year today.month h1 h2
    have hpair : monthlyWindow today =
        (Date.atMin ⟨today.year, today.month, 1⟩,
         (Date.atMin (followingMonthFirst today.year today.month)).subOneSecond) := by
      unfold monthlyWindow
      dsimp only
      rw [ha.1, ha.2]
      rcases hm12 : decide (today.month = 12) with _ | _ <;>
        simp_all [followingMonthFirst]
    refine ⟨hpair, ?_⟩
    rw [hpair]
    unfold followingMonthFirst DateTime.subOneSecond Date.atMin
    by_cases hm : today.month = 12
    · simp [hm, daysInMonth]
    · have hm1 : 1 < today.month + 1 := by omega
      simp [hm, hm1, Nat.add_sub_cancel]

/-- Witness for C7: the daily window equivalence at a concrete timestamp,
the boundary rows of 2024-06-15, and the June 2024 monthly window. -/
theorem report_window_spec_witness :
    (tsBetween (dailyWindow ⟨2024, 6, 15⟩).1 (DateTime.mk 2024 6 15 23 59 59 0)
        (dailyWindow ⟨2024, 6, 15⟩).2 = true ↔
      ((Date.atMin ⟨2024, 6, 15⟩).ble (DateTime.mk 2024 6 15 23 59 59 0) = true ∧
        (DateTime.mk 2024 6 15 23 59 59 0).ble
          (Date.atLastSecond ⟨2024, 6, 15⟩) = true)) ∧
    tsBetween (dailyWindow ⟨2024, 6, 15⟩).1 (Date.atLastSecond ⟨2024, 6, 15⟩)
        (dailyWindow ⟨2024, 6, 15⟩).2 = true ∧
    tsBetween (dailyWindow ⟨2024, 6, 15⟩).1 ((Date.next ⟨2024, 6, 15⟩).atMin)
        (dailyWindow ⟨2024, 6, 15⟩).2 = false ∧
    (monthlyWindow ⟨2024, 6, 15⟩).2 = ⟨2024, 6, 30, 23, 59, 59, 0⟩ :=
  ⟨report_window_spec.1 ⟨2024, 6, 15⟩ (DateTime.mk 2024 6 15 23 59 59 0) rfl,
   (report_window_spec.2.1 ⟨2024, 6, 15⟩ (by refine ⟨?_, ?_, ?_, ?_⟩ <;> decide)).1,
   (report_window_spec.2.1 ⟨2024, 6, 15⟩ (by refine ⟨?_, ?_, ?_, ?_⟩ <;> decide)).2,
   by
    rw [(report_window_spec.2.2 ⟨2024, 6, 15⟩
      (by refine ⟨?_, ?_, ?_, ?_⟩ <;> decide)).2]
    decide⟩

/-- Witness for C10 on a concrete running station. -/
theorem session_row_timestamps_spec_witness :
    ∃ row : CompletedSession,
      (stop_station 100 (DateTime.mk 2024 6 15 12 0 0 0) 60
          (StationState.mk "Table 1" true false (some 40) 30 "omar")
          Db.empty).2.sessions = Db.empty.sessions ++ [row] ∧
      row.start_ts = DateTime.mk 2024 6 15 12 0 0 0 ∧
      row.end_ts = row.start_ts ∧
      row.duration_seconds =
        pyInt ((stop_station 100 (DateTime.mk 2024 6 15 12 0 0 0) 60
          (StationState.mk "Table 1" true false (some 40) 30 "omar")
          Db.empty).1.elapsed) ∧
      (∀ lo hi : DateTime,
        tsBetween lo row.start_ts hi =
          tsBetween lo (DateTime.mk 2024 6 15 12 0 0 0) hi) ∧
      (2 ≤ row.duration_seconds →
        (row.end_ts.key : ℤ) - (row.start_ts.key : ℤ) ≠ row.duration_seconds) :=
  session_row_timestamps_spec _ Db.empty 100 _ 60 rfl

/-- C8: the report's Total Revenue line is the session sum plus the
sales sum — the cash net figure is excluded (the total is unchanged by
the cash table) — and every aggregate is 0 when no row matches its
window; `export_summary` over the empty database yields zero in all
three sections. -/
theorem report_totals_spec :
    (∀ (db : Db) (lo hi : DateTime),
      (build_report db lo hi).total_revenue =
        (build_report db lo hi).session_revenue +
          (build_report db lo hi).item_sales) ∧
    (∀ (db db2 : Db) (lo hi : DateTime), db.sessions = db2.sessions →
      db.item_sales = db2.item_sales →
      (build_report db lo hi).total_revenue =
        (build_report db2 lo hi).total_revenue) ∧
    (∀ (db : Db) (lo hi : DateTime),
      (∀ r ∈ db.sessions, tsBetween lo r.start_ts hi = false) →
      (build_report db lo hi).session_revenue = 0) ∧
    (∀ (db : Db) (lo hi : DateTime),
      (∀ r ∈ db.item_sales, tsBetween lo r.ts hi = false) →
      (build_report db lo hi).item_sales = 0) ∧
    (∀ (db : Db) (lo hi : DateTime),
      (∀ r ∈ db.cash_transactions, tsBetween lo r.ts hi = false) →
      (build_report db lo hi).cash_net = 0) ∧
    export_summary Db.empty = (0, 0, 0) ∧
    (∀ lo hi : DateTime, build_report Db.empty lo hi =
      { session_revenue := 0, item_sales := 0, cash_net := 0,
        total_revenue := 0 }) := by
  refine ⟨fun db lo hi => rfl, ?_, ?_, ?_, ?_, rfl, fun lo hi => by
    simp [build_report, sessionsTotalBetween, salesTotalBetween,
      cashTotalBetween, Db.empty]⟩
  · intro db db2 lo hi hsess hsales
    simp [build_report, sessionsTotalBetween, salesTotalBetween, hsess, hsales]
  · intro db lo hi h
    have : db.sessions.filter (fun r => tsBetween lo r.start_ts hi) = [] :=
      List.filter_eq_nil_iff.mpr (fun r hr => by simp [h r hr])
    simp [build_report, sessionsTotalBetween, this]
  · intro db lo hi h
    have : db.item_sales.filter (fun r => tsBetween lo r.ts hi) = [] :=
      List.filter_eq_nil_iff.mpr (fun r hr => by simp [h r hr])
    simp [build_report, salesTotalBetween, this]
  · intro db lo hi h
    have : db.cash_transactions.filter (fun r => tsBetween lo r.ts hi) = [] :=
      List.filter_eq_nil_iff.mpr (fun r hr => by simp [h r hr])
    simp [build_report, cashTotalBetween, this]

/-- Witness for C8: a concrete database whose only rows fall outside a
concrete window. -/
theorem report_totals_spec_witness :
    (build_report
        (Db.mk [] [] [] [CompletedSession.mk "Table 1" "" (DateTime.mk 2024 7 1 0 0 0 0)
          (DateTime.mk 2024 7 1 0 0 0 0) 60 60 1])
        (Date.atMin ⟨2024, 6, 15⟩) (Date.atMax ⟨2024, 6, 15⟩)).session_revenue =
      0 ∧
    export_summary Db.empty = (0, 0, 0) :=
  ⟨report_totals_spec.2.2.1 _ _ _
      (by intro r hr; simp at hr; subst hr; decide),
   report_totals_spec.2.2.2.2.2.1⟩

/-- C9: selling an existing item with quantity ≥ 1 appends exactly one
ItemSale row, stamped with the current timestamp and totalling
price × quantity; a quantity < 1 is rejected by the dialog as invalid
and nothing is recorded. -/
theorem sell_item_spec (db : Db) (ts : DateTime) (item_id : ℕ) (qty : ℤ)
    (it : Item) (hfind : db.items.find? (fun i => i.id == item_id) = some it) :
    (1 ≤ qty → sell_item db ts item_id qty =
      .sold (db.item_sales ++ [⟨ts, item_id, qty, it.price * qty⟩])) ∧
    (qty < 1 → sell_item db ts item_id qty = .invalidQty) := by
  refine ⟨fun hq => ?_, fun hq => ?_⟩
  · simp [sell_item, hfind, show ¬ qty ≤ 0 by omega]
  · simp [sell_item, hfind, show qty ≤ 0 by omega]

/-- Witness for C9: item of price 25 sold with quantity 3 totals 75;
quantity 0 is rejected. -/
theorem sell_item_spec_witness :
    sell_item (Db.mk [Item.mk 1 "Cola" 25] [] [] [])
        (DateTime.mk 2024 6 15 12 0 0 0) 1 3 =
      .sold ([] ++ [ItemSale.mk (DateTime.mk 2024 6 15 12 0 0 0) 1 3 (25 * 3)]) ∧
    (25 * 3 : ℚ) = 75 ∧
    sell_item (Db.mk [Item.mk 1 "Cola" 25] [] [] [])
        (DateTime.mk 2024 6 15 12 0 0 0) 1 0 = .invalidQty :=
  ⟨(sell_item_spec (Db.mk [Item.mk 1 "Cola" 25] [] [] [])
      (DateTime.mk 2024 6 15 12 0 0 0) 1 3 (Item.mk 1 "Cola" 25) rfl).1
      (by norm_num),
   by norm_num,
   (sell_item_spec (Db.mk [Item.mk 1 "Cola" 25] [] [] [])
      (DateTime.mk 2024 6 15 12 0 0 0) 1 0 (Item.mk 1 "Cola" 25) rfl).2
      (by norm_num)⟩

end Space
